import Mathlib

/-!
Shallow embedding of `src/nutrition.py` (MyFitnessPal → Notion nutrition sync)
and verification of its specification.

Numeric values flowing through the program (MyFitnessPal totals, Notion
"number" properties) are modelled as exact rationals `ℚ`; the Python `round`
(round half to even) is modelled by `pyRound`.  Python `None` and absent
dictionary keys are modelled with `Option`.
-/

namespace Nutrition

/-- The Python built-in `round` to an integer: round half to even. -/
def pyRound (x : ℚ) : ℤ :=
  let f := ⌊x⌋
  let r := x - (f : ℚ)
  if r < 1/2 then f
  else if 1/2 < r then f + 1
  else if f % 2 = 0 then f else f + 1

/-- `NOTION_DATE_PROP = "Date"` (nutrition.py line 24). -/
def NOTION_DATE_PROP : String := "Date"

/-- `NOTION_CALS_IN_PROP` (line 25). -/
def NOTION_CALS_IN_PROP : String := "Calories In"

/-- `NOTION_CALS_OUT_PROP` (line 26). -/
def NOTION_CALS_OUT_PROP : String := "Calories Out (Exercise)"

/-- `NOTION_NET_CALS_PROP` (line 27). -/
def NOTION_NET_CALS_PROP : String := "Net Calories"

/-- `NOTION_PROTEIN_PROP` (line 28). -/
def NOTION_PROTEIN_PROP : String := "Protein (g)"

/-- `NOTION_CARBS_PROP` (line 29). -/
def NOTION_CARBS_PROP : String := "Carbs (g)"

/-- `NOTION_FATS_PROP` (line 30). -/
def NOTION_FATS_PROP : String := "Fats (g)"

/-- `NOTION_WATER_PROP` (line 31). -/
def NOTION_WATER_PROP : String := "Water (ml)"

/-- One exercise entry: `entry.nutrition_information.get("calories burned", 0)`
reads an optional number, so the field is an `Option ℚ`. -/
structure MfpEntry where
  caloriesBurned : Option ℚ
deriving DecidableEq

/-- One exercise group: `exercise_group.entries` (line 79). -/
structure MfpExerciseGroup where
  entries : List MfpEntry
deriving DecidableEq

/-- The day object of the provider: `day.totals` is a dict whose keys may be
absent (`.get(key, 0)`), and `day.exercises` is a list of groups. -/
structure MfpDay where
  calories : Option ℚ
  protein : Option ℚ
  carbohydrates : Option ℚ
  fat : Option ℚ
  exercises : List MfpExerciseGroup
deriving DecidableEq

/-- Outcome of the provider calls inside the `try` block of
`get_mfp_data_for_date`: an exception anywhere in the block (`err`), a falsy
`day` (`noDay`), or a day object together with the result of
`client.get_water` (which may be Python `None`). -/
inductive MfpFetch where
  | err : MfpFetch
  | noDay : MfpFetch
  | ok : MfpDay → Option ℚ → MfpFetch
deriving DecidableEq

/-- The dictionary returned by `get_mfp_data_for_date` (lines 91-100).  The
six core numeric keys and `date` are always present; `water_ml` is modelled
as `Option ℚ` because the Notion writers test the presence of the key and
non-`None`-ness (`"water_ml" in mfp_data and mfp_data["water_ml"] is not
None`), so `none` stands for an absent or `None` entry. -/
structure MfpData where
  date : String
  calories_in : ℚ
  calories_out_exercise : ℚ
  net_calories : ℚ
  protein : ℚ
  carbs : ℚ
  fats : ℚ
  water_ml : Option ℚ
deriving DecidableEq

/-- The accumulation loop of lines 76-80:
`calories_out_exercise += entry.nutrition_information.get("calories burned", 0)`
over every entry of every exercise group.  The `if day.exercises:` guard is
behaviourally identical to folding over the empty list (both leave 0). -/
def calories_out_exercise_total (exercises : List MfpExerciseGroup) : ℚ :=
  exercises.foldl
    (fun acc g => g.entries.foldl (fun a e => a + e.caloriesBurned.getD 0) acc) 0

/-- `get_mfp_data_for_date` (lines 50-103).  The `try` block returns `None`
on any exception (`err`) and on a falsy day (`noDay`); otherwise it builds
the dictionary of lines 91-100.  `x or 0` on a number is numerically the
identity (it maps 0 to 0), so it is dropped; `round` is `pyRound`;
`water_ml if water_ml is not None else 0` is `Option.getD 0`. -/
def get_mfp_data_for_date (dateStr : String) : MfpFetch → Option MfpData
  | .err => none
  | .noDay => none
  | .ok day water =>
    let calories_in := day.calories.getD 0
    let protein := day.protein.getD 0
    let carbs := day.carbohydrates.getD 0
    let fats := day.fat.getD 0
    let calories_out_exercise := calories_out_exercise_total day.exercises
    let net_calories := calories_in - calories_out_exercise
    some
      { date := dateStr
        calories_in := (pyRound calories_in : ℚ)
        calories_out_exercise := (pyRound calories_out_exercise : ℚ)
        net_calories := (pyRound net_calories : ℚ)
        protein := (pyRound protein : ℚ)
        carbs := (pyRound carbs : ℚ)
        fats := (pyRound fats : ℚ)
        water_ml := some (water.getD 0) }

/-- A stored Notion page (lines 125-126, 141-147): a record identifier plus
the database properties the program reads.  Each property is
`Option (Option ℚ)`: the outer layer models whether the key is in
`page["properties"]` at all, the inner layer models a present key whose
`number` is `None`. -/
structure NotionPage where
  id : String
  calsIn : Option (Option ℚ)
  calsOut : Option (Option ℚ)
  netCals : Option (Option ℚ)
  protein : Option (Option ℚ)
  carbs : Option (Option ℚ)
  fats : Option (Option ℚ)
  water : Option (Option ℚ)
deriving DecidableEq

/-- `get_notion_number` (lines 144-147): the stored number when the property
is present with a non-`None` number, otherwise 0. -/
def get_notion_number (prop : Option (Option ℚ)) : ℚ :=
  match prop with
  | some (some v) => v
  | _ => 0

/-- The comparison `get_notion_number(NOTION_WATER_PROP) != new_data["water_ml"]`
of line 155.  When the snapshot field `water_ml` is a number this is rational
disequality; a Python `None` on the right compares unequal to every number.
(Snapshots produced by `get_mfp_data_for_date` always carry a number here.) -/
def water_mismatch (stored : Option (Option ℚ)) (newWater : Option ℚ) : Bool :=
  match newWater with
  | some w => decide (get_notion_number stored ≠ w)
  | none => true

/-- `entry_needs_update` (lines 132-160): the big `or`-chain of lines
149-155, then the water-absent check of line 158
(`NOTION_WATER_PROP not in props and new_data.get("water_ml", 0) > 0`). -/
def entry_needs_update (page : NotionPage) (nd : MfpData) : Bool :=
  if get_notion_number page.calsIn ≠ nd.calories_in ∨
      get_notion_number page.calsOut ≠ nd.calories_out_exercise ∨
      get_notion_number page.netCals ≠ nd.net_calories ∨
      get_notion_number page.protein ≠ nd.protein ∨
      get_notion_number page.carbs ≠ nd.carbs ∨
      get_notion_number page.fats ≠ nd.fats ∨
      (page.water.isSome = true ∧ water_mismatch page.water nd.water_ml = true)
  then true
  else if page.water = none ∧ 0 < nd.water_ml.getD 0 then true
  else false

/-- A Notion property value as submitted by this program: a date start
string (`{"date": {"start": ...}}`) or a number (`{"number": ...}`). -/
inductive PropValue where
  | dateStart : String → PropValue
  | number : ℚ → PropValue
deriving DecidableEq

/-- The `page_data` built by `create_notion_entry` (lines 170-188): parent
database, the properties dict in insertion order, and the fixed icon. -/
structure CreatePayload where
  parent_database_id : String
  properties : List (String × PropValue)
  icon_emoji : String
deriving DecidableEq

/-- The `update_data` built by `update_notion_entry` (lines 216-219). -/
structure UpdatePayload where
  page_id : String
  properties : List (String × PropValue)
deriving DecidableEq

/-- `create_notion_entry` (lines 162-188), embedded as the request payload it
submits.  Properties follow the insertion order of the source: Date first, then
the six numeric fields, then Water appended when
`"water_ml" in mfp_data and mfp_data["water_ml"] is not None` (line 179). -/
def create_notion_entry (database_id : String) (d : MfpData) : CreatePayload :=
  { parent_database_id := database_id
    properties :=
      [(NOTION_DATE_PROP, PropValue.dateStart d.date),
       (NOTION_CALS_IN_PROP, PropValue.number d.calories_in),
       (NOTION_CALS_OUT_PROP, PropValue.number d.calories_out_exercise),
       (NOTION_NET_CALS_PROP, PropValue.number d.net_calories),
       (NOTION_PROTEIN_PROP, PropValue.number d.protein),
       (NOTION_CARBS_PROP, PropValue.number d.carbs),
       (NOTION_FATS_PROP, PropValue.number d.fats)] ++
      (match d.water_ml with
       | some w => [(NOTION_WATER_PROP, PropValue.number w)]
       | none => [])
    icon_emoji := "🍎" }

/-- `update_notion_entry` (lines 197-219), embedded as the request payload it
submits: the six numeric fields (no Date property), then Water appended under
the same condition as in `create_notion_entry` (line 213). -/
def update_notion_entry (page_id : String) (d : MfpData) : UpdatePayload :=
  { page_id := page_id
    properties :=
      [(NOTION_CALS_IN_PROP, PropValue.number d.calories_in),
       (NOTION_CALS_OUT_PROP, PropValue.number d.calories_out_exercise),
       (NOTION_NET_CALS_PROP, PropValue.number d.net_calories),
       (NOTION_PROTEIN_PROP, PropValue.number d.protein),
       (NOTION_CARBS_PROP, PropValue.number d.carbs),
       (NOTION_FATS_PROP, PropValue.number d.fats)] ++
      (match d.water_ml with
       | some w => [(NOTION_WATER_PROP, PropValue.number w)]
       | none => []) }

/-- The documented partial-update contract of the store for update-record-by-id
(spec §4.4, §6): a property named in the submitted set is rewritten to the
submitted value; every other stored property is retained.  The record after
the update is modelled by its per-key lookup. -/
def apply_update (stored new : List (String × PropValue)) (k : String) :
    Option PropValue :=
  match new.lookup k with
  | some v => some v
  | none => stored.lookup k

/-- Outcome of the store query inside `entry_exists` (lines 115-130): an
exception (`err`), or a response whose `results` list is returned. -/
inductive QueryOutcome where
  | err : QueryOutcome
  | ok : List NotionPage → QueryOutcome

/-- `entry_exists` (lines 105-130): on a successful query, the first result
if the `results` list is non-empty (`response["results"][0]`), else `None`;
any exception is caught and yields `None`. -/
def entry_exists : QueryOutcome → Option NotionPage
  | .err => none
  | .ok results =>
    match results with
    | [] => none
    | p :: _ => some p

/-- The per-date decision of `main` (lines 283-296): if an existing page was
found, update when `entry_needs_update` says so, otherwise no-op; if none was
found, create. -/
inductive Action where
  | noop : Action
  | create : Action
  | update : String → Action
deriving DecidableEq

/-- The branch structure of the loop body of `main` after MFP data was obtained
(lines 283-296). -/
def decide_action (q : QueryOutcome) (nd : MfpData) : Action :=
  match entry_exists q with
  | some page =>
    if entry_needs_update page nd then Action.update page.id else Action.noop
  | none => Action.create

/-- A request issued against the store: the query of `entry_exists`, a
create, or an update. -/
inductive StoreOp where
  | queryOp : String → StoreOp
  | createOp : MfpData → StoreOp
  | updateOp : String → MfpData → StoreOp
deriving DecidableEq

/-- The store requests issued for one date of the loop of `main` (lines 268-296):
nothing when `get_mfp_data_for_date` returned `None` (the `continue` of line
277), otherwise the query followed by the chosen write, if any. -/
def process_date (dateStr : String) (fetch : MfpFetch) (q : QueryOutcome) :
    List StoreOp :=
  match get_mfp_data_for_date dateStr fetch with
  | none => []
  | some nd =>
    StoreOp.queryOp dateStr ::
    match entry_exists q with
    | some page =>
      if entry_needs_update page nd then [StoreOp.updateOp page.id nd] else []
    | none => [StoreOp.createOp nd]

/-- One date of a run: the date string together with the responses of the
environment (provider fetch outcome, store query outcome). -/
structure DateTask where
  date : String
  fetch : MfpFetch
  query : QueryOutcome

/-- The date loop of `main` (lines 268-296): each date is processed in order,
independently of the others. -/
def sync_run (tasks : List DateTask) : List (List StoreOp) :=
  tasks.map fun t => process_date t.date t.fetch t.query

/-- The environment-sourced configuration read at lines 14-15: `os.getenv`
yields `none` when the variable is unset. -/
structure Config where
  notion_token : Option String
  notion_database_id : Option String

/-- Python falsiness of an environment value (`if not NOTION_TOKEN`, lines
229, 232): unset (`None`) and the empty string are falsy. -/
def env_falsy : Option String → Bool
  | none => true
  | some s => s.isEmpty

/-- An externally visible effect of `main`: creating the MyFitnessPal
client (line 242), creating the Notion client (line 255), or a store
request. -/
inductive Effect where
  | mfpClientInit : Effect
  | notionClientInit : Effect
  | store : StoreOp → Effect
deriving DecidableEq

/-- The external effects of `main` (lines 227-298) in order: the two config
guards return early (lines 229-234); then the MFP client is created (a
failure there returns, line 251); then the Notion client is created and the
date loop runs. -/
def main_effects (cfg : Config) (mfpInitOk : Bool) (tasks : List DateTask) :
    List Effect :=
  if env_falsy cfg.notion_token then []
  else if env_falsy cfg.notion_database_id then []
  else
    Effect.mfpClientInit ::
      (if mfpInitOk then
        Effect.notionClientInit ::
          tasks.flatMap fun t =>
            (process_date t.date t.fetch t.query).map Effect.store
      else [])

/-- Concrete provider day for the C1 counterexample: raw calories 3/2, one
exercise entry burning 1/2 calories. -/
def day_half : MfpDay :=
  { calories := some (3/2)
    protein := none
    carbohydrates := none
    fat := none
    exercises := [{ entries := [{ caloriesBurned := some (1/2) }] }] }

/-- The snapshot `get_mfp_data_for_date` builds from `day_half`. -/
def snap_half : MfpData :=
  { date := "2024-01-01"
    calories_in := 2
    calories_out_exercise := 0
    net_calories := 1
    protein := 0
    carbs := 0
    fats := 0
    water_ml := some 0 }

/-- Concrete provider day for the C3 counterexample: no food logged, one
exercise entry burning 100 calories. -/
def day_neg : MfpDay :=
  { calories := none
    protein := none
    carbohydrates := none
    fat := none
    exercises := [{ entries := [{ caloriesBurned := some 100 }] }] }

/-- The snapshot `get_mfp_data_for_date` builds from `day_neg` with a
provider water reading of -1/2 ml. -/
def snap_neg : MfpData :=
  { date := "2024-01-02"
    calories_in := 0
    calories_out_exercise := 100
    net_calories := -100
    protein := 0
    carbs := 0
    fats := 0
    water_ml := some (-1/2) }

/-- Concrete provider day with plain integer totals, used by witnesses. -/
def day_plain : MfpDay :=
  { calories := some 2000
    protein := some 90
    carbohydrates := some 250
    fat := some 70
    exercises := [] }

/-- The snapshot `get_mfp_data_for_date` builds from `day_plain` with a
provider water reading of 500 ml. -/
def snap_plain : MfpData :=
  { date := "2024-01-03"
    calories_in := 2000
    calories_out_exercise := 0
    net_calories := 2000
    protein := 90
    carbs := 250
    fats := 70
    water_ml := some 500 }

/-- A stored page with every numeric property absent, used by witnesses. -/
def page_empty : NotionPage :=
  { id := "page-0"
    calsIn := none
    calsOut := none
    netCals := none
    protein := none
    carbs := none
    fats := none
    water := none }

/-- A snapshot of all-zero values with water 0, used by witnesses. -/
def snap_zero : MfpData :=
  { date := "2024-01-04"
    calories_in := 0
    calories_out_exercise := 0
    net_calories := 0
    protein := 0
    carbs := 0
    fats := 0
    water_ml := some 0 }

/-- A configuration with both required variables unset, used by witnesses. -/
def cfg_unset : Config :=
  { notion_token := none
    notion_database_id := none }


/-- Python `round` is the identity on integers. -/
theorem pyRound_intCast (n : ℤ) : pyRound (n : ℚ) = n := by
  unfold pyRound
  norm_num [Int.floor_intCast]

theorem pyRound_zero : pyRound 0 = 0 := by
  unfold pyRound; norm_num

theorem pyRound_one : pyRound 1 = 1 := by
  unfold pyRound; norm_num

theorem pyRound_one_half : pyRound (1/2) = 0 := by
  unfold pyRound; norm_num

theorem pyRound_three_halves : pyRound (3/2) = 2 := by
  unfold pyRound; norm_num

theorem pyRound_hundred : pyRound 100 = 100 := by
  unfold pyRound; norm_num

theorem pyRound_neg_hundred : pyRound (-100) = -100 := by
  unfold pyRound; norm_num

theorem pyRound_two_thousand : pyRound 2000 = 2000 := by
  unfold pyRound; norm_num

theorem pyRound_ninety : pyRound 90 = 90 := by
  unfold pyRound; norm_num

theorem pyRound_two_fifty : pyRound 250 = 250 := by
  unfold pyRound; norm_num

theorem pyRound_seventy : pyRound 70 = 70 := by
  unfold pyRound; norm_num

/-- Python `round` sends non-negative rationals to non-negative integers. -/
theorem pyRound_nonneg {x : ℚ} (hx : 0 ≤ x) : 0 ≤ pyRound x := by
  unfold pyRound
  have h0 : (0 : ℤ) ≤ ⌊x⌋ := Int.floor_nonneg.mpr hx
  dsimp only
  split_ifs <;> omega

theorem entries_foldl_nonneg (es : List MfpEntry) (a : ℚ) (ha : 0 ≤ a)
    (h : ∀ e ∈ es, 0 ≤ e.caloriesBurned.getD 0) :
    0 ≤ es.foldl (fun a e => a + e.caloriesBurned.getD 0) a := by
  induction es generalizing a with
  | nil => simpa using ha
  | cons e es ih =>
    simp only [List.foldl_cons]
    exact ih _ (add_nonneg ha (h e (by simp))) fun x hx => h x (by simp [hx])

theorem calories_out_total_nonneg (exs : List MfpExerciseGroup)
    (h : ∀ g ∈ exs, ∀ e ∈ g.entries, 0 ≤ e.caloriesBurned.getD 0) :
    0 ≤ calories_out_exercise_total exs := by
  unfold calories_out_exercise_total
  have H : ∀ (l : List MfpExerciseGroup),
      (∀ g ∈ l, ∀ e ∈ g.entries, 0 ≤ e.caloriesBurned.getD 0) →
      ∀ a : ℚ, 0 ≤ a →
      0 ≤ l.foldl
        (fun acc g => g.entries.foldl (fun a e => a + e.caloriesBurned.getD 0) acc) a := by
    intro l
    induction l with
    | nil => intro _ a ha; simpa using ha
    | cons g gs ih =>
      intro hl a ha
      simp only [List.foldl_cons]
      exact ih (fun x hx => hl x (by simp [hx])) _
        (entries_foldl_nonneg g.entries a ha (hl g (by simp)))
  exact H exs h 0 le_rfl

/-- The snapshot built from `day_half` with no water reading. -/
theorem get_mfp_day_half_eq :
    get_mfp_data_for_date "2024-01-01" (MfpFetch.ok day_half none) = some snap_half := by
  norm_num [get_mfp_data_for_date, day_half, snap_half, calories_out_exercise_total,
    pyRound_three_halves, pyRound_one_half, pyRound_one, pyRound_zero,
    MfpData.mk.injEq]

/-- C1 counterexample: with raw calories-in 3/2 and raw exercise calories 1/2,
the snapshot has net_calories round(3/2 - 1/2) = 1, while
round(3/2) - round(1/2) = 2 - 0 = 2 under Python rounding. -/
theorem net_calories_per_field_rounding_counterexample :
    get_mfp_data_for_date "2024-01-01" (MfpFetch.ok day_half none) = some snap_half ∧
    day_half.calories.getD 0 = 3/2 ∧
    calories_out_exercise_total day_half.exercises = 1/2 ∧
    snap_half.net_calories ≠ ((pyRound (3/2) : ℚ) - (pyRound (1/2) : ℚ)) := by
  refine ⟨get_mfp_day_half_eq, by norm_num [day_half],
    by norm_num [day_half, calories_out_exercise_total], ?_⟩
  rw [pyRound_three_halves, pyRound_one_half]
  norm_num [snap_half]

/-- C1 (amended): the net_calories of every snapshot is the single Python rounding
of the raw difference calories_in - calories_out_exercise. -/
theorem net_calories_from_raw_difference (dateStr : String) (day : MfpDay)
    (water : Option ℚ) (d : MfpData)
    (h : get_mfp_data_for_date dateStr (MfpFetch.ok day water) = some d) :
    d.net_calories =
      ((pyRound (day.calories.getD 0 - calories_out_exercise_total day.exercises) : ℤ) : ℚ) := by
  simp only [get_mfp_data_for_date, Option.some_inj] at h
  subst h
  rfl

/-- C1 witness: the amended theorem evaluated on `day_half`. -/
theorem net_calories_from_raw_difference_witness :
    snap_half.net_calories =
      ((pyRound (day_half.calories.getD 0 -
        calories_out_exercise_total day_half.exercises) : ℤ) : ℚ) :=
  net_calories_from_raw_difference "2024-01-01" day_half none snap_half
    get_mfp_day_half_eq

/-- C2: the update predicate holds iff a core numeric field differs
(missing-or-null stored number read as 0), or stored water is present and
differs, or stored water is absent and the new water is positive. -/
theorem entry_needs_update_characterization (page : NotionPage) (nd : MfpData)
    (w : ℚ) (hw : nd.water_ml = some w) :
    entry_needs_update page nd = true ↔
      (get_notion_number page.calsIn ≠ nd.calories_in ∨
       get_notion_number page.calsOut ≠ nd.calories_out_exercise ∨
       get_notion_number page.netCals ≠ nd.net_calories ∨
       get_notion_number page.protein ≠ nd.protein ∨
       get_notion_number page.carbs ≠ nd.carbs ∨
       get_notion_number page.fats ≠ nd.fats ∨
       (page.water ≠ none ∧ get_notion_number page.water ≠ w) ∨
       (page.water = none ∧ 0 < w)) := by
  unfold entry_needs_update
  rw [hw]
  simp only [water_mismatch, Option.getD_some, decide_eq_true_eq,
    Option.isSome_iff_ne_none]
  split_ifs with h1 h2
  · simp only [true_iff]
    tauto
  · simp only [true_iff]
    tauto
  · simp only [false_iff]
    push_neg at h1 h2
    obtain ⟨e1, e2, e3, e4, e5, e6, hw7⟩ := h1
    rintro (h | h | h | h | h | h | ⟨hne, hmw⟩ | ⟨hnone, hpos⟩)
    · exact h e1
    · exact h e2
    · exact h e3
    · exact h e4
    · exact h e5
    · exact h e6
    · exact hmw (hw7 hne)
    · exact absurd hpos (not_lt.mpr (h2 hnone))

/-- C2 witness: an all-absent stored page against the all-zero snapshot. -/
theorem entry_needs_update_characterization_witness :
    entry_needs_update page_empty snap_zero = true ↔
      (get_notion_number page_empty.calsIn ≠ snap_zero.calories_in ∨
       get_notion_number page_empty.calsOut ≠ snap_zero.calories_out_exercise ∨
       get_notion_number page_empty.netCals ≠ snap_zero.net_calories ∨
       get_notion_number page_empty.protein ≠ snap_zero.protein ∨
       get_notion_number page_empty.carbs ≠ snap_zero.carbs ∨
       get_notion_number page_empty.fats ≠ snap_zero.fats ∨
       (page_empty.water ≠ none ∧ get_notion_number page_empty.water ≠ 0) ∨
       (page_empty.water = none ∧ 0 < (0:ℚ))) :=
  entry_needs_update_characterization page_empty snap_zero 0 rfl

/-- The snapshot built from `day_neg` with water reading -1/2. -/
theorem get_mfp_day_neg_eq :
    get_mfp_data_for_date "2024-01-02" (MfpFetch.ok day_neg (some (-1/2)))
      = some snap_neg := by
  norm_num [get_mfp_data_for_date, day_neg, snap_neg, calories_out_exercise_total,
    pyRound_zero, pyRound_hundred, pyRound_neg_hundred, MfpData.mk.injEq]

/-- C3 counterexample: with no food logged, 100 exercise calories and a
provider water reading of -1/2, the snapshot has net_calories -100 (negative)
and its water_ml is -1/2, which is neither non-negative nor an integer
(water is passed through unrounded). -/
theorem snapshot_nonneg_integer_counterexample :
    get_mfp_data_for_date "2024-01-02" (MfpFetch.ok day_neg (some (-1/2)))
      = some snap_neg ∧
    snap_neg.net_calories < 0 ∧
    snap_neg.water_ml = some (-1/2) ∧
    (¬ ∃ n : ℤ, 0 ≤ n ∧ snap_neg.net_calories = (n : ℚ)) ∧
    (¬ ∃ n : ℤ, snap_neg.water_ml = some ((n : ℤ) : ℚ)) := by
  refine ⟨get_mfp_day_neg_eq, by norm_num [snap_neg], rfl, ?_, ?_⟩
  · rintro ⟨n, hn, he⟩
    have hc : ((-100 : ℤ) : ℚ) = (n : ℚ) := by
      rw [← he]; norm_num [snap_neg]
    have : (-100 : ℤ) = n := by exact_mod_cast hc
    omega
  · rintro ⟨n, hn⟩
    simp only [snap_neg, Option.some_inj] at hn
    have h2 : (-1 : ℚ) = 2 * (n : ℚ) := by rw [← hn]; norm_num
    have h3 : (-1 : ℤ) = 2 * n := by exact_mod_cast h2
    omega

/-- C3 (amended): every snapshot has its six core fields integer-valued;
calories_in, calories_out_exercise, protein, carbs and fats are non-negative
when the provider raw values are; water_ml is the raw water value unrounded
(0 when the provider reports none). -/
theorem snapshot_fields_integral (dateStr : String) (day : MfpDay)
    (water : Option ℚ) (d : MfpData)
    (h : get_mfp_data_for_date dateStr (MfpFetch.ok day water) = some d)
    (hcal : 0 ≤ day.calories.getD 0) (hpro : 0 ≤ day.protein.getD 0)
    (hcarb : 0 ≤ day.carbohydrates.getD 0) (hfat : 0 ≤ day.fat.getD 0)
    (hex : ∀ g ∈ day.exercises, ∀ e ∈ g.entries, 0 ≤ e.caloriesBurned.getD 0) :
    (∃ n : ℤ, d.calories_in = (n : ℚ)) ∧
    (∃ n : ℤ, d.calories_out_exercise = (n : ℚ)) ∧
    (∃ n : ℤ, d.net_calories = (n : ℚ)) ∧
    (∃ n : ℤ, d.protein = (n : ℚ)) ∧
    (∃ n : ℤ, d.carbs = (n : ℚ)) ∧
    (∃ n : ℤ, d.fats = (n : ℚ)) ∧
    0 ≤ d.calories_in ∧ 0 ≤ d.calories_out_exercise ∧
    0 ≤ d.protein ∧ 0 ≤ d.carbs ∧ 0 ≤ d.fats ∧
    d.water_ml = some (water.getD 0) := by
  simp only [get_mfp_data_for_date, Option.some_inj] at h
  subst h
  refine ⟨⟨_, rfl⟩, ⟨_, rfl⟩, ⟨_, rfl⟩, ⟨_, rfl⟩, ⟨_, rfl⟩, ⟨_, rfl⟩,
    ?_, ?_, ?_, ?_, ?_, rfl⟩
  · exact_mod_cast Int.cast_nonneg.mpr (pyRound_nonneg hcal)
  · exact_mod_cast Int.cast_nonneg.mpr
      (pyRound_nonneg (calories_out_total_nonneg day.exercises hex))
  · exact_mod_cast Int.cast_nonneg.mpr (pyRound_nonneg hpro)
  · exact_mod_cast Int.cast_nonneg.mpr (pyRound_nonneg hcarb)
  · exact_mod_cast Int.cast_nonneg.mpr (pyRound_nonneg hfat)

/-- The snapshot built from `day_plain` with water reading 500. -/
theorem get_mfp_day_plain_eq :
    get_mfp_data_for_date "2024-01-03" (MfpFetch.ok day_plain (some 500))
      = some snap_plain := by
  norm_num [get_mfp_data_for_date, day_plain, snap_plain, calories_out_exercise_total,
    pyRound_two_thousand, pyRound_ninety, pyRound_two_fifty, pyRound_seventy,
    pyRound_zero, MfpData.mk.injEq]

/-- C3 witness: the amended theorem evaluated on `day_plain`. -/
theorem snapshot_fields_integral_witness :
    (∃ n : ℤ, snap_plain.calories_in = (n : ℚ)) ∧
    (∃ n : ℤ, snap_plain.calories_out_exercise = (n : ℚ)) ∧
    (∃ n : ℤ, snap_plain.net_calories = (n : ℚ)) ∧
    (∃ n : ℤ, snap_plain.protein = (n : ℚ)) ∧
    (∃ n : ℤ, snap_plain.carbs = (n : ℚ)) ∧
    (∃ n : ℤ, snap_plain.fats = (n : ℚ)) ∧
    0 ≤ snap_plain.calories_in ∧ 0 ≤ snap_plain.calories_out_exercise ∧
    0 ≤ snap_plain.protein ∧ 0 ≤ snap_plain.carbs ∧ 0 ≤ snap_plain.fats ∧
    snap_plain.water_ml = some ((some (500:ℚ)).getD 0) :=
  snapshot_fields_integral "2024-01-03" day_plain (some 500) snap_plain
    get_mfp_day_plain_eq (by norm_num [day_plain]) (by norm_num [day_plain])
    (by norm_num [day_plain]) (by norm_num [day_plain]) (by simp [day_plain])

/-- C4: the update payload is exactly the property list of the create payload with
the Date property removed; it never names the Date property, so under the
partial-update contract of the store the stored date is unchanged. -/
theorem update_never_touches_date (page_id database_id : String) (d : MfpData)
    (stored : List (String × PropValue)) :
    (update_notion_entry page_id d).properties
      = (create_notion_entry database_id d).properties.filter
          (fun kv => kv.1 != NOTION_DATE_PROP) ∧
    (update_notion_entry page_id d).properties.lookup NOTION_DATE_PROP = none ∧
    apply_update stored (update_notion_entry page_id d).properties NOTION_DATE_PROP
      = stored.lookup NOTION_DATE_PROP := by
  have hl : (update_notion_entry page_id d).properties.lookup NOTION_DATE_PROP
      = none := by
    cases hw : d.water_ml <;>
      simp [update_notion_entry, hw, List.lookup, NOTION_DATE_PROP,
        NOTION_CALS_IN_PROP, NOTION_CALS_OUT_PROP, NOTION_NET_CALS_PROP,
        NOTION_PROTEIN_PROP, NOTION_CARBS_PROP, NOTION_FATS_PROP,
        NOTION_WATER_PROP]
  refine ⟨?_, hl, ?_⟩
  · cases hw : d.water_ml <;>
      simp [create_notion_entry, update_notion_entry, hw, NOTION_DATE_PROP,
        NOTION_CALS_IN_PROP, NOTION_CALS_OUT_PROP, NOTION_NET_CALS_PROP,
        NOTION_PROTEIN_PROP, NOTION_CARBS_PROP, NOTION_FATS_PROP,
        NOTION_WATER_PROP]
  · simp [apply_update, hl]

/-- C5: `entry_exists` yields the first result when the store returns a
non-empty result list, and nothing when it returns no match. -/
theorem entry_exists_returns_first :
    entry_exists (QueryOutcome.ok []) = none ∧
    ∀ (p : NotionPage) (rest : List NotionPage),
      entry_exists (QueryOutcome.ok (p :: rest)) = some p :=
  ⟨rfl, fun _ _ => rfl⟩

/-- C6: a store query error behaves exactly like no existing record; Create
is chosen precisely when no record is found; No-Op requires a found record
whose predicate is false. -/
theorem store_query_error_means_create (nd : MfpData) (q : QueryOutcome) :
    entry_exists QueryOutcome.err = none ∧
    decide_action QueryOutcome.err nd = Action.create ∧
    (decide_action q nd = Action.create ↔ entry_exists q = none) ∧
    (decide_action q nd = Action.noop ↔
      ∃ page, entry_exists q = some page ∧ entry_needs_update page nd = false) := by
  refine ⟨rfl, rfl, ?_, ?_⟩
  · cases hq : entry_exists q with
    | none => simp [decide_action, hq]
    | some page =>
      cases hp : entry_needs_update page nd <;> simp [decide_action, hq, hp]
  · cases hq : entry_exists q with
    | none => simp [decide_action, hq]
    | some page =>
      cases hp : entry_needs_update page nd <;> simp [decide_action, hq, hp]

/-- C7: a provider error or a no-data day yields no snapshot and no store
request at all for that date, and the run continues with the remaining
dates. -/
theorem provider_failure_skips_date (dateStr : String) (q : QueryOutcome)
    (t : DateTask) (ts : List DateTask) :
    get_mfp_data_for_date dateStr MfpFetch.err = none ∧
    get_mfp_data_for_date dateStr MfpFetch.noDay = none ∧
    process_date dateStr MfpFetch.err q = [] ∧
    process_date dateStr MfpFetch.noDay q = [] ∧
    sync_run (t :: ts) = process_date t.date t.fetch t.query :: sync_run ts :=
  ⟨rfl, rfl, rfl, rfl, rfl⟩

/-- C8: with the store token or the database id unset, `main` performs no
external effect: no MyFitnessPal client is created and no store request is
issued. -/
theorem missing_config_aborts (cfg : Config) (mfpInitOk : Bool)
    (tasks : List DateTask)
    (h : cfg.notion_token = none ∨ cfg.notion_database_id = none) :
    main_effects cfg mfpInitOk tasks = [] ∧
    Effect.mfpClientInit ∉ main_effects cfg mfpInitOk tasks ∧
    ∀ op : StoreOp, Effect.store op ∉ main_effects cfg mfpInitOk tasks := by
  have he : main_effects cfg mfpInitOk tasks = [] := by
    rcases h with h | h <;> simp [main_effects, env_falsy, h]
  exact ⟨he, by simp [he], fun op => by simp [he]⟩

/-- C8 witness: the theorem evaluated on the fully-unset configuration. -/
theorem missing_config_aborts_witness :
    main_effects cfg_unset true [] = [] ∧
    Effect.mfpClientInit ∉ main_effects cfg_unset true [] ∧
    ∀ op : StoreOp, Effect.store op ∉ main_effects cfg_unset true [] :=
  missing_config_aborts cfg_unset true [] (Or.inl rfl)

/-- C9: every snapshot carries a non-null water_ml, so both writers include
the Water property with that value. -/
theorem snapshot_always_has_water (dateStr : String) (f : MfpFetch)
    (d : MfpData) (h : get_mfp_data_for_date dateStr f = some d)
    (database_id page_id : String) :
    ∃ w : ℚ, d.water_ml = some w ∧
      (create_notion_entry database_id d).properties.lookup NOTION_WATER_PROP
        = some (PropValue.number w) ∧
      (update_notion_entry page_id d).properties.lookup NOTION_WATER_PROP
        = some (PropValue.number w) := by
  cases f with
  | err => exact absurd h (by simp [get_mfp_data_for_date])
  | noDay => exact absurd h (by simp [get_mfp_data_for_date])
  | ok day water =>
    simp only [get_mfp_data_for_date, Option.some_inj] at h
    subst h
    refine ⟨water.getD 0, rfl, ?_, ?_⟩ <;>
      simp [create_notion_entry, update_notion_entry, List.lookup,
        NOTION_DATE_PROP, NOTION_CALS_IN_PROP, NOTION_CALS_OUT_PROP,
        NOTION_NET_CALS_PROP, NOTION_PROTEIN_PROP, NOTION_CARBS_PROP,
        NOTION_FATS_PROP, NOTION_WATER_PROP]

/-- C9 witness: the theorem evaluated on `day_plain`. -/
theorem snapshot_always_has_water_witness :
    ∃ w : ℚ, snap_plain.water_ml = some w ∧
      (create_notion_entry "db-1" snap_plain).properties.lookup NOTION_WATER_PROP
        = some (PropValue.number w) ∧
      (update_notion_entry "page-1" snap_plain).properties.lookup NOTION_WATER_PROP
        = some (PropValue.number w) :=
  snapshot_always_has_water "2024-01-03" (MfpFetch.ok day_plain (some 500))
    snap_plain get_mfp_day_plain_eq "db-1" "page-1"

/-- C10: for one snapshot the create and update payloads carry identical
property lists except that create prepends the Date property; create also
carries the fixed apple icon. -/
theorem create_update_payloads_agree (database_id page_id : String)
    (d : MfpData) :
    (create_notion_entry database_id d).properties
      = (NOTION_DATE_PROP, PropValue.dateStart d.date)
          :: (update_notion_entry page_id d).properties ∧
    (create_notion_entry database_id d).icon_emoji = "🍎" :=
  ⟨rfl, rfl⟩

end Nutrition
